import Mathlib

/-!
# Verification of the A/B-Testing inventory simulation core

Shallow embedding, in Lean 4, of the core of the `A-B_Testing` repository:

* `src/rop_calculations.py` — the fixed and dynamic reorder-point policies;
* `src/simulation_engine.py` — SKU statistics builder, stratified
  control/treatment assignment, and the day-by-day inventory simulation;
* `src/statistical_analysis.py` — the comparator (`compare_means`) and the
  ROI computation (`calculate_roi`).

Modelling conventions:

* Python/NumPy floats are modelled as exact rationals (`ℚ`).
* A NumPy/pandas `NaN` arising from an undefined statistic (sample standard
  deviation of fewer than two observations, mean of an empty series) is
  modelled as `Option.none`; NaN-propagation through arithmetic is modelled
  by `Option.map` / matching.
* IEEE division of a finite float by zero (NumPy semantics: `x/0 → ±inf`,
  `0/0 → nan`, no exception) is modelled by `fdiv` into the small float-like
  type `FVal` (`fin q | pinf | ninf | nan`).
* `stats.norm.ppf(service_level)` is an external SciPy routine; it is kept
  as an explicit rational parameter `z` of the policy functions.  Its only
  property used is `0 ≤ z`, which holds exactly when `service_level ≥ 1/2`
  (e.g. the repository default 0.95).
* `np.sqrt` is modelled by `ratSqrt`, a rational square-root approximation
  that is exact on perfect rational squares and shares with the real square
  root the sign properties the theorems rely on: `ratSqrt x ≥ 0` always,
  `ratSqrt x > 0` iff `x > 0` (for `x ≥ 0`), `ratSqrt 0 = 0`.
* The seeded NumPy Mersenne-Twister shuffle used by the assignment strategy
  is modelled as an explicit state-threaded function
  `shuffle : ℕ → List String → List String × ℕ`; `np.random.seed(seed)`
  makes the real shuffle exactly such a deterministic function of the seed.
  The only property assumed of it is length preservation (a shuffle is a
  permutation).
* The per-day random demand draw (`np.random.choice`) and the Bernoulli
  order-arrival draw are modelled by passing the sampled daily demand and
  the arrival decision for each day as an explicit input list
  `days : List (ℚ × Bool)`.
* `scipy.stats.ttest_ind` (the p-value) is external to the repository and is
  not modelled; no claim refers to it.
-/

/-! ## Rational helpers shared by the embedding -/

/-- Mean of a list of rationals, as `pandas`/NumPy compute it: sum divided by
length.  For the empty list the real libraries yield `NaN`; here division by
zero yields the junk value `0`, so every theorem that would be affected by
the empty case carries an explicit non-emptiness hypothesis. -/
def pandasMean (l : List ℚ) : ℚ := l.sum / (l.length : ℚ)

/-- `l[-n:]` in NumPy/Python slicing: the last `n` elements (all of `l` when
`l` has fewer than `n` elements). -/
def lastN (n : ℕ) (l : List ℚ) : List ℚ := l.drop (l.length - n)

/-- Sum of squared deviations from the mean, the common core of the sample
and population variances. -/
def sqDevSum (l : List ℚ) : ℚ := (l.map (fun x => (x - pandasMean l) ^ 2)).sum

/-- Sample variance with `ddof = 1` (pandas default); only used behind guards
that ensure at least two observations. -/
def sampleVar (l : List ℚ) : ℚ := sqDevSum l / ((l.length : ℚ) - 1)

/-- Population variance with `ddof = 0` (NumPy `ndarray.std` default). -/
def popVar (l : List ℚ) : ℚ := sqDevSum l / (l.length : ℚ)

/-- Model of `np.sqrt` on rationals: integer square roots of numerator and
denominator.  Exact on perfect rational squares; nonnegative everywhere and
strictly positive exactly on the positive rationals, which are the only
properties of the real square root the development uses. -/
def ratSqrt (x : ℚ) : ℚ := (Nat.sqrt x.num.toNat : ℚ) / (Nat.sqrt x.den : ℚ)

theorem ratSqrt_nonneg (x : ℚ) : 0 ≤ ratSqrt x :=
  div_nonneg (Nat.cast_nonneg _) (Nat.cast_nonneg _)

theorem ratSqrt_pos {x : ℚ} (hx : 0 < x) : 0 < ratSqrt x := by
  have hnum : 0 < x.num.toNat := by
    have := Rat.num_pos.mpr hx
    omega
  have hden : 0 < x.den := x.pos
  exact div_pos
    (by exact_mod_cast Nat.sqrt_pos.mpr hnum)
    (by exact_mod_cast Nat.sqrt_pos.mpr hden)

/-- A float-like value: finite rational, the two infinities, or NaN.  Used
where the Python code can produce a non-finite IEEE value. -/
inductive FVal where
  | fin (q : ℚ)
  | pinf
  | ninf
  | nan
deriving DecidableEq, Repr

/-- NumPy float division: finite quotient when the denominator is nonzero,
otherwise `±inf` or `nan` according to the sign of the numerator (NumPy
emits a warning, not an exception). -/
def fdiv (a b : ℚ) : FVal :=
  if b = 0 then (if 0 < a then .pinf else if a < 0 then .ninf else .nan)
  else .fin (a / b)

/-- Multiplication of a float-like value by the positive constant 100
(`* 100` on the percent-change line); infinities and NaN are absorbing. -/
def fscale100 (v : FVal) : FVal :=
  match v with
  | .fin q => .fin (q * 100)
  | v => v

/-- `v` is a finite float. -/
def FVal.isFinite : FVal → Bool
  | .fin _ => true
  | _ => false

/-! ## `src/rop_calculations.py` -/

/-- Result record of `calculate_fixed_rop`. -/
structure FixedRopResult where
  rop : ℚ
  safety_stock : ℚ
  method : String
deriving DecidableEq, Repr

/-- `calculate_fixed_rop(avg_daily_demand, avg_lead_time, demand_std,
service_level)` from `src/rop_calculations.py`.  The z-score
`stats.norm.ppf(service_level)` is passed as the rational parameter `z` and
`np.sqrt` is `ratSqrt`:
`safety_stock = z * demand_std * sqrt(avg_lead_time)`,
`rop = avg_daily_demand * avg_lead_time + safety_stock`. -/
def calculate_fixed_rop (z avg_daily_demand avg_lead_time demand_std : ℚ) :
    FixedRopResult :=
  let safety_stock := z * demand_std * ratSqrt avg_lead_time
  { rop := avg_daily_demand * avg_lead_time + safety_stock
    safety_stock := safety_stock
    method := "fixed" }

/-- Result record of `calculate_dynamic_rop`. -/
structure DynamicRopResult where
  rop : ℚ
  safety_stock : ℚ
  wma_demand : ℚ
  forecasted_lt : ℚ
  method : String
deriving DecidableEq, Repr

/-- `calculate_dynamic_rop(recent_demand, recent_lead_times, service_level)`
from `src/rop_calculations.py`, with the default weights
`{30d: 0.5, 60d: 0.3, 90d: 0.2}`:

* `wma_demand`: the weighted moving average of the last 30/60/90 demand
  observations when at least 90 exist, else the plain mean of all of them;
* `forecasted_lt`: mean of the last 10 lead-time observations, or the
  constant 14 when there are none;
* `safety_stock = z * std(window) * sqrt(forecasted_lt)` where the window is
  the last 30 observations when at least 30 exist, else all of them, and
  `std` is NumPy population standard deviation (`ddof = 0`);
* `rop = wma_demand * forecasted_lt + safety_stock`. -/
def calculate_dynamic_rop (z : ℚ) (recent_demand recent_lead_times : List ℚ) :
    DynamicRopResult :=
  let wma_demand :=
    if 90 ≤ recent_demand.length then
      (1/2) * pandasMean (lastN 30 recent_demand)
        + (3/10) * pandasMean (lastN 60 recent_demand)
        + (1/5) * pandasMean (lastN 90 recent_demand)
    else pandasMean recent_demand
  let forecasted_lt :=
    if 0 < recent_lead_times.length then pandasMean (lastN 10 recent_lead_times)
    else 14
  let recent_std :=
    if 30 ≤ recent_demand.length then ratSqrt (popVar (lastN 30 recent_demand))
    else ratSqrt (popVar recent_demand)
  let safety_stock := z * recent_std * ratSqrt forecasted_lt
  { rop := wma_demand * forecasted_lt + safety_stock
    safety_stock := safety_stock
    wma_demand := wma_demand
    forecasted_lt := forecasted_lt
    method := "dynamic" }

/-! ## SKU statistics builder (`calculate_sku_statistics`) -/

/-- The per-SKU row of `InventorySimulator.calculate_sku_statistics`.
`demand_std` is `Option ℚ`: pandas `std` (`ddof = 1`) of a single
observation is `NaN` (`none`), and — unlike the lead-time columns — the code
applies no `fillna` to it. -/
structure SkuStats where
  avg_daily_demand : ℚ
  demand_std : Option ℚ
  total_demand : ℚ
  avg_lead_time : ℚ
  lead_time_std : ℚ
deriving DecidableEq, Repr

/-- pandas sample standard deviation (`ddof = 1`): `NaN` (`none`) for fewer
than two observations, else the square root of the sample variance. -/
def pandasStd (l : List ℚ) : Option ℚ :=
  if l.length ≤ 1 then none else some (ratSqrt (sampleVar l))

/-- One row of `calculate_sku_statistics` in `src/simulation_engine.py`, for
a SKU whose demand observations are `demand` (nonempty, since the SKU has a
row in the groupby) and whose purchase-order lead times are `leadTimes`
(possibly empty — left merge).  The lead-time columns are filled:
`avg_lead_time` falls back to 14 when the SKU has no purchase orders (merge
`NaN`), `lead_time_std` falls back to 3 when it is `NaN` (no orders, or a
single order making `ddof = 1` undefined).  `demand_std` is *not* filled. -/
def calculate_sku_statistics (demand leadTimes : List ℚ) : SkuStats :=
  { avg_daily_demand := pandasMean demand
    demand_std := pandasStd demand
    total_demand := demand.sum
    avg_lead_time := if leadTimes.length = 0 then 14 else pandasMean leadTimes
    lead_time_std :=
      match pandasStd leadTimes with
      | some s => s
      | none => 3 }

/-- How `simulate_group` feeds the builder's row into `calculate_fixed_rop`:
the possibly-`NaN` `demand_std` flows into the safety-stock product, and a
`NaN` input makes every float output of the policy `NaN` (modelled by
`Option.map`). -/
def fixedRopFromStats (z : ℚ) (st : SkuStats) : Option FixedRopResult :=
  st.demand_std.map (fun sd =>
    calculate_fixed_rop z st.avg_daily_demand st.avg_lead_time sd)

/-! ## Inventory simulator (`simulate_sku_inventory`) -/

/-- Loop state of `simulate_sku_inventory`: the mutable locals of the day
loop, plus the list of recorded end-of-day inventory levels. -/
structure SimState where
  inventory : ℚ
  on_order : ℚ
  stockouts : ℕ
  total_demand : ℚ
  demand_met : ℚ
  inventory_levels : List ℚ
deriving DecidableEq, Repr

/-- Initialization: `inventory = rop * 2`, nothing on order, all counters
zero. -/
def simInit (rop : ℚ) : SimState :=
  { inventory := rop * 2
    on_order := 0
    stockouts := 0
    total_demand := 0
    demand_met := 0
    inventory_levels := [] }

/-- Demand-fulfilment phase of one simulated day: accumulate the day's
demand, then either serve it fully or ship the remaining inventory and count
a stockout. -/
def fulfillDemand (s : SimState) (d : ℚ) : SimState :=
  if d ≤ s.inventory then
    { s with
      inventory := s.inventory - d
      demand_met := s.demand_met + d
      total_demand := s.total_demand + d }
  else
    { s with
      inventory := 0
      demand_met := s.demand_met + s.inventory
      stockouts := s.stockouts + 1
      total_demand := s.total_demand + d }

/-- Reorder-trigger phase: place an order of `order_qty` only when inventory
is at or below the reorder point *and* no order is outstanding. -/
def placeOrder (rop order_qty : ℚ) (s : SimState) : SimState :=
  if s.inventory ≤ rop ∧ s.on_order = 0 then { s with on_order := order_qty }
  else s

/-- Receipt phase: when an order is outstanding and this day's Bernoulli
draw (`np.random.random() < 1/lead_time`) succeeded, the order arrives —
inventory grows by the outstanding quantity and the outstanding order
clears. -/
def receiveOrder (s : SimState) (arrive : Bool) : SimState :=
  if 0 < s.on_order ∧ arrive then
    { s with inventory := s.inventory + s.on_order, on_order := 0 }
  else s

/-- End-of-day bookkeeping: record the post-step inventory level. -/
def recordLevel (s : SimState) : SimState :=
  { s with inventory_levels := s.inventory_levels ++ [s.inventory] }

/-- One iteration of the day loop.  `day.1` is the sampled daily demand
(`np.random.choice` over the SKU's history, or 0 when there is none) and
`day.2` the order-arrival draw. -/
def simStep (rop order_qty : ℚ) (s : SimState) (day : ℚ × Bool) : SimState :=
  recordLevel (receiveOrder (placeOrder rop order_qty (fulfillDemand s day.1)) day.2)

/-- The whole day loop of `simulate_sku_inventory`: fold the daily step over
the horizon, starting from the initial state, with the fixed order quantity
`rop * 1.5`. -/
def simRun (rop : ℚ) (days : List (ℚ × Bool)) : SimState :=
  days.foldl (simStep rop (rop * (3/2))) (simInit rop)

/-- Output record of `simulate_sku_inventory`. -/
structure SimOutcome where
  fill_rate : ℚ
  avg_inventory : ℚ
  stockout_count : ℕ
  total_demand : ℚ
  demand_met : ℚ
deriving DecidableEq, Repr

/-- `simulate_sku_inventory` from `src/simulation_engine.py`: run the day
loop, then `fill_rate = demand_met / total_demand * 100` when some demand
occurred, else the guarded value 100; `avg_inventory` is the mean of the
recorded levels. -/
def simulate_sku_inventory (rop : ℚ) (days : List (ℚ × Bool)) : SimOutcome :=
  let s := simRun rop days
  { fill_rate :=
      if 0 < s.total_demand then s.demand_met / s.total_demand * 100 else 100
    avg_inventory := pandasMean s.inventory_levels
    stockout_count := s.stockouts
    total_demand := s.total_demand
    demand_met := s.demand_met }

/-! ## Assignment strategy (`assign_treatment_groups`) -/

/-- A SKU-master row, reduced to the two columns the assignment reads. -/
structure SKU where
  sku_id : String
  abc_class : String
deriving DecidableEq, Repr

/-- `sku_master[sku_master['abc_class'] == c]['sku_id'].values`. -/
def classSkus (m : List SKU) (c : String) : List String :=
  (m.filter (fun s => s.abc_class = c)).map (fun s => s.sku_id)

/-- The per-stratum pieces built by the loop of `assign_treatment_groups`:
for each class list in order, shuffle it under the threaded generator state,
split at the floor of half its size, and emit
`(first half → control, second half → treatment)`.  `shuffle` models the
seeded `np.random.shuffle` as a pure state-threaded function. -/
def strataGo (shuffle : ℕ → List String → List String × ℕ) :
    List (List String) → ℕ → List (List String × List String)
  | [], _ => []
  | l :: rest, st =>
    let sh := shuffle st l
    let split := l.length / 2
    ((sh.1.take split, sh.1.drop split)) :: strataGo shuffle rest sh.2

/-- The stratum pieces for the three ABC classes, in the loop's order,
starting from the generator state set by `np.random.seed(seed)`. -/
def strataPieces (shuffle : ℕ → List String → List String × ℕ) (seed : ℕ)
    (m : List SKU) : List (List String × List String) :=
  strataGo shuffle ([ "A", "B", "C" ].map (classSkus m)) seed

/-- `assign_treatment_groups` from `src/simulation_engine.py`: the control
group is the concatenation of the first halves, the treatment group the
concatenation of the second halves, over the strata `A`, `B`, `C`. -/
def assign_treatment_groups (shuffle : ℕ → List String → List String × ℕ)
    (seed : ℕ) (m : List SKU) : List String × List String :=
  ((strataPieces shuffle seed m).map Prod.fst |>.flatten,
   (strataPieces shuffle seed m).map Prod.snd |>.flatten)

/-! ## Statistical comparator (`compare_means`) -/

/-- The fields of `compare_means`'s result that the embedding models.  The
`p_value` / `is_significant` fields come from `scipy.stats.ttest_ind`, a
routine external to the repository, and are omitted.  `pooled_std` and the
confidence bounds are `Option ℚ` because pandas `std`/`var` (`ddof = 1`) of
fewer than two observations is `NaN`.  `pct_change` is `FVal` because its
division is unguarded. -/
structure CompareResult where
  control_mean : ℚ
  treatment_mean : ℚ
  difference : ℚ
  pct_change : FVal
  pooled_std : Option ℚ
  cohens_d : ℚ
  ci_lower : Option ℚ
  ci_upper : Option ℚ
deriving DecidableEq, Repr

/-- pandas sample variance (`ddof = 1`), `NaN` (`none`) for fewer than two
observations. -/
def pandasVar (l : List ℚ) : Option ℚ :=
  if l.length ≤ 1 then none else some (sampleVar l)

/-- `compare_means(control, treatment)` from
`src/statistical_analysis.py` (descriptive part):

* `difference = treatment.mean() - control.mean()`;
* `pct_change = (difference / control_mean) * 100`, an *unguarded* float
  division — `±inf`/`nan` when the control mean is zero;
* `pooled_std = sqrt((control.std()² + treatment.std()²) / 2)`, `NaN` when
  either sample standard deviation is `NaN`;
* `cohens_d = difference / pooled_std if pooled_std > 0 else 0` (a `NaN`
  pooled standard deviation fails the `> 0` test, yielding 0);
* 95% CI `difference ± 1.96 * sqrt(control.var()/n_c + treatment.var()/n_t)`. -/
def compare_means (control treatment : List ℚ) : CompareResult :=
  let control_mean := pandasMean control
  let treatment_mean := pandasMean treatment
  let difference := treatment_mean - control_mean
  let pooled_std :=
    match pandasStd control, pandasStd treatment with
    | some sc, some st => some (ratSqrt ((sc ^ 2 + st ^ 2) / 2))
    | _, _ => none
  let cohens_d :=
    match pooled_std with
    | some p => if 0 < p then difference / p else 0
    | none => 0
  let se :=
    match pandasVar control, pandasVar treatment with
    | some vc, some vt =>
        some (ratSqrt (vc / (control.length : ℚ) + vt / (treatment.length : ℚ)))
    | _, _ => none
  { control_mean := control_mean
    treatment_mean := treatment_mean
    difference := difference
    pct_change := fscale100 (fdiv difference control_mean)
    pooled_std := pooled_std
    cohens_d := cohens_d
    ci_lower := se.map (fun s => difference - (49/25) * s)
    ci_upper := se.map (fun s => difference + (49/25) * s) }

/-! ## ROI computation (`calculate_roi`) -/

/-- The configuration surface the specification describes for the ROI step:
carrying-cost rate plus the monetary constants (unit cost, per-stockout
cost, implementation cost, annual maintenance, discount rate).  The code of
`calculate_roi` reads only `carrying_cost_rate` from its configuration; the
record carries the other fields so that sensitivity to them is statable. -/
structure RoiConfig where
  carrying_cost_rate : ℚ
  unit_cost : ℚ
  stockout_cost : ℚ
  implementation_cost : ℚ
  annual_maintenance : ℚ
  discount_rate : ℚ
deriving DecidableEq, Repr

/-- The two columns of a per-SKU simulation-result row that `calculate_roi`
reads. -/
structure RoiRow where
  avg_inventory : ℚ
  stockout_count : ℚ
deriving DecidableEq, Repr

/-- Output record of `calculate_roi`.  `payback_months` is `FVal` because
the code reports `np.inf` when the total annual benefit is not positive. -/
structure RoiResult where
  inventory_savings : ℚ
  annual_carrying_savings : ℚ
  stockout_savings : ℚ
  total_annual_benefit : ℚ
  payback_months : FVal
  npv_3year : ℚ
  roi_year1 : ℚ
deriving DecidableEq, Repr

/-- `calculate_roi(control, treatment)` from `src/statistical_analysis.py`.
Hard-coded in the source: `avg_unit_cost = 25`,
`stockout_cost_per_incident = 150`, `implementation_cost = 50000`,
`annual_maintenance = 15000`, discount factor `1.10`; only
`carrying_cost_rate` is read from the configuration.  The payback division
is guarded: it is evaluated only when `total_annual_benefit > 0`, otherwise
the sentinel `np.inf` is returned. -/
def calculate_roi (cfg : RoiConfig) (control treatment : List RoiRow) :
    RoiResult :=
  let inventory_savings :=
    (control.map RoiRow.avg_inventory).sum * 25
      - (treatment.map RoiRow.avg_inventory).sum * 25
  let annual_carrying_savings := inventory_savings * cfg.carrying_cost_rate
  let stockout_savings :=
    ((control.map RoiRow.stockout_count).sum
      - (treatment.map RoiRow.stockout_count).sum) * 150
  let total_annual_benefit :=
    annual_carrying_savings + stockout_savings - 15000
  { inventory_savings := inventory_savings
    annual_carrying_savings := annual_carrying_savings
    stockout_savings := stockout_savings
    total_annual_benefit := total_annual_benefit
    payback_months :=
      if 0 < total_annual_benefit then
        .fin (50000 / (total_annual_benefit / 12))
      else .pinf
    npv_3year :=
      -50000 + total_annual_benefit / (11/10) ^ 1
        + total_annual_benefit / (11/10) ^ 2
        + total_annual_benefit / (11/10) ^ 3
    roi_year1 := (total_annual_benefit - 50000) / 50000 * 100 }

/-! ## Helper lemmas -/

theorem pandasMean_nonneg {l : List ℚ} (h : ∀ x ∈ l, 0 ≤ x) :
    0 ≤ pandasMean l :=
  div_nonneg (List.sum_nonneg h) (Nat.cast_nonneg _)

theorem lastN_nonneg {l : List ℚ} (n : ℕ) (h : ∀ x ∈ l, 0 ≤ x) :
    ∀ x ∈ lastN n l, 0 ≤ x :=
  fun x hx => h x (List.mem_of_mem_drop hx)

theorem dynamic_safety_stock_nonneg {z : ℚ} (hz : 0 ≤ z)
    (d lts : List ℚ) :
    0 ≤ (calculate_dynamic_rop z d lts).safety_stock := by
  unfold calculate_dynamic_rop
  dsimp only
  have hstd : (0:ℚ) ≤
      (if 30 ≤ d.length then ratSqrt (popVar (lastN 30 d))
       else ratSqrt (popVar d)) := by
    split <;> exact ratSqrt_nonneg _
  exact mul_nonneg (mul_nonneg hz hstd) (ratSqrt_nonneg _)

theorem dynamic_wma_nonneg (z : ℚ) {d : List ℚ} (lts : List ℚ)
    (hd : ∀ x ∈ d, 0 ≤ x) :
    0 ≤ (calculate_dynamic_rop z d lts).wma_demand := by
  unfold calculate_dynamic_rop
  dsimp only
  split
  · have h30 := pandasMean_nonneg (lastN_nonneg 30 hd)
    have h60 := pandasMean_nonneg (lastN_nonneg 60 hd)
    have h90 := pandasMean_nonneg (lastN_nonneg 90 hd)
    positivity
  · exact pandasMean_nonneg hd

theorem dynamic_forecast_nonneg (z : ℚ) (d : List ℚ) {lts : List ℚ}
    (hlts : ∀ x ∈ lts, 0 ≤ x) :
    0 ≤ (calculate_dynamic_rop z d lts).forecasted_lt := by
  unfold calculate_dynamic_rop
  dsimp only
  split
  · exact pandasMean_nonneg (lastN_nonneg 10 hlts)
  · norm_num

/-- Claim C2: for every input accepted by the policy functions — nonnegative
summary statistics (demand mean, demand standard deviation, lead time) and a
service level of at least one half (such as the default 0.95, whose z-score
`stats.norm.ppf` value is then nonnegative, passed here as `0 ≤ z`), with a
nonempty demand series of nonnegative observations and nonnegative lead-time
observations for the dynamic policy — both `calculate_fixed_rop` and
`calculate_dynamic_rop` return a nonnegative reorder point and a nonnegative
safety stock. -/
theorem claim_C2 (z avg_daily_demand avg_lead_time demand_std : ℚ)
    (d lts : List ℚ)
    (hz : 0 ≤ z) (havg : 0 ≤ avg_daily_demand) (hlt : 0 ≤ avg_lead_time)
    (hstd : 0 ≤ demand_std) (hd : d ≠ []) (hdpos : ∀ x ∈ d, 0 ≤ x)
    (hlts : ∀ x ∈ lts, 0 ≤ x) :
    0 ≤ (calculate_fixed_rop z avg_daily_demand avg_lead_time demand_std).safety_stock ∧
    0 ≤ (calculate_fixed_rop z avg_daily_demand avg_lead_time demand_std).rop ∧
    0 ≤ (calculate_dynamic_rop z d lts).safety_stock ∧
    0 ≤ (calculate_dynamic_rop z d lts).rop := by
  have hss : 0 ≤ z * demand_std * ratSqrt avg_lead_time :=
    mul_nonneg (mul_nonneg hz hstd) (ratSqrt_nonneg _)
  refine ⟨hss, add_nonneg (mul_nonneg havg hlt) hss, ?_, ?_⟩
  · exact dynamic_safety_stock_nonneg hz d lts
  · have hwma := dynamic_wma_nonneg z lts hdpos
    have hflt := dynamic_forecast_nonneg z d hlts
    have hss' := dynamic_safety_stock_nonneg hz d lts
    have hrop : (calculate_dynamic_rop z d lts).rop
        = (calculate_dynamic_rop z d lts).wma_demand
            * (calculate_dynamic_rop z d lts).forecasted_lt
          + (calculate_dynamic_rop z d lts).safety_stock := rfl
    rw [hrop]
    exact add_nonneg (mul_nonneg hwma hflt) hss'

/-- Concrete instantiation of `claim_C2`: service level 0.95
(`z ≈ 1.645`), demand mean 10, lead time 7, demand std 2, demand series
`[1, 2]`, lead times `[3]`. -/
theorem claim_C2_witness :
    0 ≤ (calculate_fixed_rop (329/200) 10 7 2).safety_stock ∧
    0 ≤ (calculate_fixed_rop (329/200) 10 7 2).rop ∧
    0 ≤ (calculate_dynamic_rop (329/200) [1, 2] [3]).safety_stock ∧
    0 ≤ (calculate_dynamic_rop (329/200) [1, 2] [3]).rop :=
  claim_C2 (329/200) 10 7 2 [1, 2] [3]
    (by norm_num) (by norm_num) (by norm_num) (by norm_num)
    (by simp) (by intro x hx; fin_cases hx <;> norm_num)
    (by intro x hx; fin_cases hx <;> norm_num)

/-- Claim C5: for every nonempty demand series with fewer than 90
observations, `calculate_dynamic_rop` uses the plain mean of all available
demand observations as the weighted-moving-average demand, and its reorder
point equals `mean(demand) * forecasted_lt + safety_stock`, where the
forecasted lead time is the mean of the most recent 10 lead-time
observations (or 14 if there are none).  (Non-emptiness reflects that the
mean of an empty NumPy array is `NaN`; the repository always passes a SKU's
actual demand history.) -/
theorem claim_C5 (z : ℚ) (d lts : List ℚ) (hd : d ≠ [])
    (hlen : d.length < 90) :
    (calculate_dynamic_rop z d lts).rop
      = pandasMean d * (calculate_dynamic_rop z d lts).forecasted_lt
        + (calculate_dynamic_rop z d lts).safety_stock ∧
    (calculate_dynamic_rop z d lts).wma_demand = pandasMean d ∧
    (calculate_dynamic_rop z d lts).forecasted_lt
      = (if 0 < lts.length then pandasMean (lastN 10 lts) else 14) := by
  have h90 : ¬ (90 ≤ d.length) := by omega
  unfold calculate_dynamic_rop
  simp only [if_neg h90]
  refine ⟨?_, ?_, ?_⟩ <;> first | trivial | rfl

/-- Concrete instantiation of `claim_C5`: demand series `[2, 4]` (2 < 90
observations), lead times `[3]`, z-score 1. -/
theorem claim_C5_witness :
    (calculate_dynamic_rop 1 [2, 4] [3]).rop
      = pandasMean [2, 4] * (calculate_dynamic_rop 1 [2, 4] [3]).forecasted_lt
        + (calculate_dynamic_rop 1 [2, 4] [3]).safety_stock ∧
    (calculate_dynamic_rop 1 [2, 4] [3]).wma_demand = pandasMean [2, 4] ∧
    (calculate_dynamic_rop 1 [2, 4] [3]).forecasted_lt
      = (if 0 < ([3] : List ℚ).length then pandasMean (lastN 10 [3]) else 14) :=
  claim_C5 1 [2, 4] [3] (by simp) (by simp)

/-! ## Claims about the inventory simulator -/

/-- One simulated day preserves the simulator's sign invariants when the
day's demand is nonnegative: inventory stays nonnegative, met demand stays
nonnegative and never exceeds accumulated total demand. -/
theorem simStep_inv (rop oq : ℚ) (s : SimState) (day : ℚ × Bool)
    (hd : 0 ≤ day.1) (h1 : 0 ≤ s.inventory) (h2 : 0 ≤ s.demand_met)
    (h3 : s.demand_met ≤ s.total_demand) :
    0 ≤ (simStep rop oq s day).inventory ∧
    0 ≤ (simStep rop oq s day).demand_met ∧
    (simStep rop oq s day).demand_met ≤ (simStep rop oq s day).total_demand := by
  unfold simStep recordLevel receiveOrder placeOrder fulfillDemand
  dsimp only
  split_ifs <;> dsimp only <;> refine ⟨?_, ?_, ?_⟩ <;> linarith

/-- The sign invariants hold after folding the day loop over any day list
with nonnegative demands, from any state satisfying them. -/
theorem simFold_inv (rop oq : ℚ) (days : List (ℚ × Bool))
    (hd : ∀ p ∈ days, 0 ≤ p.1) (s : SimState) (h1 : 0 ≤ s.inventory)
    (h2 : 0 ≤ s.demand_met) (h3 : s.demand_met ≤ s.total_demand) :
    0 ≤ (days.foldl (simStep rop oq) s).inventory ∧
    0 ≤ (days.foldl (simStep rop oq) s).demand_met ∧
    (days.foldl (simStep rop oq) s).demand_met
      ≤ (days.foldl (simStep rop oq) s).total_demand := by
  induction days generalizing s with
  | nil => exact ⟨h1, h2, h3⟩
  | cons day rest ih =>
    have hstep := simStep_inv rop oq s day (hd day (by simp)) h1 h2 h3
    exact ih (fun p hp => hd p (by simp [hp])) _ hstep.1 hstep.2.1 hstep.2.2

/-- Claim C1, corrected: the claim quantified over *any* reorder point, but
a negative reorder point starts the simulation with negative inventory,
which the stockout branch credits to `demand_met`, driving the fill rate
negative (see the counterexample).  With a nonnegative reorder point — the
only kind the repository's policies produce for valid statistics, claim C2 —
the claim holds: for any day list with nonnegative sampled demands,
`simulate_sku_inventory` returns `fill_rate ∈ [0, 100]`,
`demand_met ≤ total_demand`, and exactly 100 when total demand is zero (the
division is guarded, not a runtime error). -/
theorem claim_C1 (rop : ℚ) (days : List (ℚ × Bool)) (hrop : 0 ≤ rop)
    (hd : ∀ p ∈ days, 0 ≤ p.1) :
    0 ≤ (simulate_sku_inventory rop days).fill_rate ∧
    (simulate_sku_inventory rop days).fill_rate ≤ 100 ∧
    (simulate_sku_inventory rop days).demand_met
      ≤ (simulate_sku_inventory rop days).total_demand ∧
    ((simulate_sku_inventory rop days).total_demand = 0 →
      (simulate_sku_inventory rop days).fill_rate = 100) := by
  have hinit : 0 ≤ (simInit rop).inventory := by
    simp [simInit]; linarith
  have hinv := simFold_inv rop (rop * (3/2)) days hd (simInit rop) hinit
    (by simp [simInit]) (by simp [simInit])
  unfold simulate_sku_inventory
  dsimp only
  set t := simRun rop days with ht
  have hinv' : 0 ≤ t.inventory ∧ 0 ≤ t.demand_met ∧
      t.demand_met ≤ t.total_demand := hinv
  refine ⟨?_, ?_, hinv'.2.2, ?_⟩
  · split
    · next hpos =>
        exact mul_nonneg (div_nonneg hinv'.2.1 (le_of_lt hpos)) (by norm_num)
    · norm_num
  · split
    · next hpos =>
        have hle : t.demand_met / t.total_demand ≤ 1 :=
          (div_le_one hpos).mpr hinv'.2.2
        linarith
    · norm_num
  · intro h0
    split
    · next hpos => exact absurd (h0 ▸ hpos) (by norm_num)
    · rfl

/-- Claim C1 fails as stated: with reorder point `-1` (allowed by the
claim's "any reorder point"), a one-day horizon and a sampled demand of 5,
the initial inventory is `-2`, the stockout branch adds `-2` to
`demand_met`, and the fill rate is `-40`, outside `[0, 100]`. -/
theorem claim_C1_counterexample :
    (simulate_sku_inventory (-1) [(5, false)]).fill_rate < 0 := by
  norm_num [simulate_sku_inventory, simRun, simInit, simStep, recordLevel,
    receiveOrder, placeOrder, fulfillDemand]

/-- Concrete instantiation of `claim_C1`: reorder point 1, two days with
demands 2 and 0. -/
theorem claim_C1_witness :
    0 ≤ (simulate_sku_inventory 1 [(2, true), (0, false)]).fill_rate ∧
    (simulate_sku_inventory 1 [(2, true), (0, false)]).fill_rate ≤ 100 ∧
    (simulate_sku_inventory 1 [(2, true), (0, false)]).demand_met
      ≤ (simulate_sku_inventory 1 [(2, true), (0, false)]).total_demand ∧
    ((simulate_sku_inventory 1 [(2, true), (0, false)]).total_demand = 0 →
      (simulate_sku_inventory 1 [(2, true), (0, false)]).fill_rate = 100) :=
  claim_C1 1 [(2, true), (0, false)] (by norm_num)
    (by intro p hp; fin_cases hp <;> norm_num)

/-- One simulated day keeps the outstanding-order quantity in
`{0, order_qty}`. -/
theorem simStep_onOrder (rop oq : ℚ) (s : SimState) (day : ℚ × Bool)
    (h : s.on_order = 0 ∨ s.on_order = oq) :
    (simStep rop oq s day).on_order = 0 ∨
    (simStep rop oq s day).on_order = oq := by
  unfold simStep recordLevel receiveOrder placeOrder fulfillDemand
  dsimp only
  split_ifs <;> dsimp only <;> tauto

/-- Folding the day loop keeps the outstanding-order quantity in
`{0, order_qty}`. -/
theorem simFold_onOrder (rop oq : ℚ) (days : List (ℚ × Bool)) (s : SimState)
    (h : s.on_order = 0 ∨ s.on_order = oq) :
    (days.foldl (simStep rop oq) s).on_order = 0 ∨
    (days.foldl (simStep rop oq) s).on_order = oq := by
  induction days generalizing s with
  | nil => exact h
  | cons day rest ih => exact ih _ (simStep_onOrder rop oq s day h)

/-- Claim C6: throughout every per-SKU simulation run the outstanding-order
quantity is either 0 or exactly the fixed order quantity `rop * 1.5` — after
any prefix of the day loop (first conjunct); a reorder trigger while an
order is outstanding is a no-op (second conjunct: the order-placement phase
leaves any state with a nonzero outstanding order unchanged); and an arrival
adds exactly the outstanding quantity — by the invariant, the order quantity
— to inventory and clears the outstanding order (third conjunct). -/
theorem claim_C6 (rop : ℚ) (days : List (ℚ × Bool)) :
    (∀ n : ℕ, (simRun rop (days.take n)).on_order = 0 ∨
      (simRun rop (days.take n)).on_order = rop * (3/2)) ∧
    (∀ s : SimState, s.on_order ≠ 0 → placeOrder rop (rop * (3/2)) s = s) ∧
    (∀ s : SimState, 0 < s.on_order →
      (receiveOrder s true).inventory = s.inventory + s.on_order ∧
      (receiveOrder s true).on_order = 0) := by
  refine ⟨?_, ?_, ?_⟩
  · intro n
    exact simFold_onOrder rop (rop * (3/2)) (days.take n) (simInit rop)
      (Or.inl rfl)
  · intro s hs
    unfold placeOrder
    rw [if_neg]
    intro hcon
    exact hs hcon.2
  · intro s hs
    unfold receiveOrder
    rw [if_pos ⟨hs, rfl⟩]
    exact ⟨rfl, rfl⟩

/-- Concrete instantiation of `claim_C6` at reorder point 2 and a two-day
run: the on-order invariant after one day, the trigger no-op on a state with
an outstanding order of 3, and an arrival into that state. -/
theorem claim_C6_witness :
    ((simRun 2 ([(1, true), (4, false)].take 1)).on_order = 0 ∨
      (simRun 2 ([(1, true), (4, false)].take 1)).on_order = 2 * (3/2)) ∧
    placeOrder 2 (2 * (3/2)) ⟨5, 3, 0, 1, 1, []⟩ = ⟨5, 3, 0, 1, 1, []⟩ ∧
    (receiveOrder ⟨5, 3, 0, 1, 1, []⟩ true).inventory = 5 + 3 ∧
    (receiveOrder ⟨5, 3, 0, 1, 1, []⟩ true).on_order = 0 :=
  ⟨(claim_C6 2 [(1, true), (4, false)]).1 1,
   (claim_C6 2 [(1, true), (4, false)]).2.1 ⟨5, 3, 0, 1, 1, []⟩ (by norm_num),
   ((claim_C6 2 [(1, true), (4, false)]).2.2 ⟨5, 3, 0, 1, 1, []⟩
     (by norm_num)).1,
   ((claim_C6 2 [(1, true), (4, false)]).2.2 ⟨5, 3, 0, 1, 1, []⟩
     (by norm_num)).2⟩

/-! ## Claims about the assignment strategy -/

/-- Every stratum piece produced by the assignment loop is balanced: when
the shuffle preserves lengths, the control half and the treatment half of
each stratum differ in size by at most one. -/
theorem strataGo_balanced (shuffle : ℕ → List String → List String × ℕ)
    (Hlen : ∀ st l, (shuffle st l).1.length = l.length) :
    ∀ (ls : List (List String)) (st : ℕ),
      ∀ p ∈ strataGo shuffle ls st,
        |(p.1.length : ℤ) - (p.2.length : ℤ)| ≤ 1 := by
  intro ls
  induction ls with
  | nil => intro st p hp; simp [strataGo] at hp
  | cons l rest ih =>
    intro st p hp
    rw [strataGo] at hp
    rcases List.mem_cons.mp hp with hhead | htail
    · subst hhead
      have hsh := Hlen st l
      simp only [List.length_take, List.length_drop, hsh]
      have hhalf : l.length / 2 ≤ l.length := Nat.div_le_self _ _
      rw [min_eq_left hhalf, abs_le]
      omega
    · exact ih _ p htail

/-- Claim C4: for every SKU master list and every fixed seed, the stratified
assignment shuffles each ABC stratum and splits it at the floor of half its
size, the first half going to control — so each stratum's control and
treatment pieces differ in size by at most one (first conjunct; the shuffle
is an arbitrary length-preserving, i.e. permuting, model of the seeded
`np.random.shuffle`).  The control group is exactly the concatenation of the
first halves and the treatment group of the second halves (second conjunct,
definitional).  The whole assignment is a pure function of the seed, the
shuffle, and the input ordering, so two runs with the same seed and input
produce the identical partition (third conjunct — determinism holds because
`np.random.seed(seed)` makes the generator a function of the seed, which is
exactly how the model renders it). -/
theorem claim_C4 (shuffle : ℕ → List String → List String × ℕ) (seed : ℕ)
    (m : List SKU) (Hlen : ∀ st l, (shuffle st l).1.length = l.length) :
    (∀ p ∈ strataPieces shuffle seed m,
      |(p.1.length : ℤ) - (p.2.length : ℤ)| ≤ 1) ∧
    assign_treatment_groups shuffle seed m
      = (((strataPieces shuffle seed m).map Prod.fst).flatten,
         ((strataPieces shuffle seed m).map Prod.snd).flatten) ∧
    assign_treatment_groups shuffle seed m
      = assign_treatment_groups shuffle seed m :=
  ⟨strataGo_balanced shuffle Hlen _ seed, rfl, rfl⟩

/-- Concrete instantiation of `claim_C4`: the reversal shuffle (a
permutation, so length-preserving) on a master list with three class-A SKUs
and one class-B SKU. -/
theorem claim_C4_witness :
    (∀ p ∈ strataPieces (fun st l => (l.reverse, st + 1)) 42
        [⟨"s1", "A"⟩, ⟨"s2", "A"⟩, ⟨"s3", "A"⟩, ⟨"s4", "B"⟩],
      |(p.1.length : ℤ) - (p.2.length : ℤ)| ≤ 1) ∧
    assign_treatment_groups (fun st l => (l.reverse, st + 1)) 42
        [⟨"s1", "A"⟩, ⟨"s2", "A"⟩, ⟨"s3", "A"⟩, ⟨"s4", "B"⟩]
      = (((strataPieces (fun st l => (l.reverse, st + 1)) 42
            [⟨"s1", "A"⟩, ⟨"s2", "A"⟩, ⟨"s3", "A"⟩, ⟨"s4", "B"⟩]).map
              Prod.fst).flatten,
         ((strataPieces (fun st l => (l.reverse, st + 1)) 42
            [⟨"s1", "A"⟩, ⟨"s2", "A"⟩, ⟨"s3", "A"⟩, ⟨"s4", "B"⟩]).map
              Prod.snd).flatten) ∧
    assign_treatment_groups (fun st l => (l.reverse, st + 1)) 42
        [⟨"s1", "A"⟩, ⟨"s2", "A"⟩, ⟨"s3", "A"⟩, ⟨"s4", "B"⟩]
      = assign_treatment_groups (fun st l => (l.reverse, st + 1)) 42
        [⟨"s1", "A"⟩, ⟨"s2", "A"⟩, ⟨"s3", "A"⟩, ⟨"s4", "B"⟩] :=
  claim_C4 (fun st l => (l.reverse, st + 1)) 42
    [⟨"s1", "A"⟩, ⟨"s2", "A"⟩, ⟨"s3", "A"⟩, ⟨"s4", "B"⟩]
    (fun st l => by simp)

/-! ## Claims about the SKU statistics builder -/

/-- Claim C3 fails as stated: for a SKU with exactly one demand observation
(demand history `[5]`, two purchase orders with lead time 7), the builder
leaves `demand_std` as the pandas `NaN` (modelled `none`), not zero, and the
fixed-ROP policy downstream of it receives that `NaN` and produces a `NaN`
safety stock and reorder point (modelled `none`), not zero safety stock:
the `fillna` calls in `calculate_sku_statistics` cover only the lead-time
columns. -/
theorem claim_C3_counterexample :
    (calculate_sku_statistics [5] [7, 7]).demand_std ≠ some 0 ∧
    fixedRopFromStats (329/200) (calculate_sku_statistics [5] [7, 7]) = none := by
  constructor <;>
    simp [calculate_sku_statistics, fixedRopFromStats, pandasStd]

/-- Claim C3, corrected: for every SKU with exactly one demand observation
the builder produces an *undefined* demand standard deviation (`NaN`,
modelled `none`), and that `NaN` — not zero — is what downstream consumers
receive: the fixed-ROP result computed from such a row is `NaN` as well.
Only the lead-time statistics are defaulted (mean 14 and std 3 when the SKU
has no purchase-order history), never the demand dispersion. -/
theorem claim_C3 (x z : ℚ) (ls : List ℚ) :
    (calculate_sku_statistics [x] ls).demand_std = none ∧
    fixedRopFromStats z (calculate_sku_statistics [x] ls) = none ∧
    (calculate_sku_statistics [x] []).avg_lead_time = 14 ∧
    (calculate_sku_statistics [x] []).lead_time_std = 3 := by
  refine ⟨?_, ?_, ?_, ?_⟩ <;>
    simp [calculate_sku_statistics, fixedRopFromStats, pandasStd]

/-! ## Claims about the statistical comparator -/

/-- Claim C7 fails as stated: with control and treatment samples both equal
to `[1, 2, 3]` the means are equal, so Cohen's d is 0, while the pooled
standard deviation is 1, not 0 — d being 0 is *not* equivalent to the
pooled standard deviation being 0. -/
theorem claim_C7_counterexample :
    ¬ (((compare_means [1, 2, 3] [1, 2, 3]).cohens_d = 0) ↔
       ((compare_means [1, 2, 3] [1, 2, 3]).pooled_std = some 0)) := by
  have hvar : sampleVar [1, 2, 3] = 1 := by
    norm_num [sampleVar, sqDevSum, pandasMean]
  have hsqrt1 : ratSqrt 1 = 1 := by
    norm_num [ratSqrt]
  have hstd : pandasStd [1, 2, 3] = some 1 := by
    rw [pandasStd, if_neg (by norm_num), hvar, hsqrt1]
  have hpool : ((1:ℚ) ^ 2 + 1 ^ 2) / 2 = 1 := by norm_num
  intro hiff
  have hd0 : (compare_means [1, 2, 3] [1, 2, 3]).cohens_d = 0 := by
    simp only [compare_means, hstd, hpool, hsqrt1]
    norm_num
  have := hiff.mp hd0
  simp only [compare_means, hstd, hpool, hsqrt1] at this
  exact one_ne_zero (Option.some_injective ℚ this)

/-- Claim C7, corrected: for samples with at least two observations each
(so the pandas standard deviations are defined), Cohen's d is 0 exactly
when the pooled standard deviation is 0 **or** the two means are equal; in
particular a zero pooled standard deviation yields d = 0 through the
guarded branch rather than a division error, but d is also 0 for equal
means with positive pooled standard deviation (the counterexample). -/
theorem claim_C7 (control treatment : List ℚ) (hc : 2 ≤ control.length)
    (ht : 2 ≤ treatment.length) :
    (compare_means control treatment).cohens_d = 0 ↔
      ((compare_means control treatment).pooled_std = some 0 ∨
       (compare_means control treatment).difference = 0) := by
  have hcs : pandasStd control = some (ratSqrt (sampleVar control)) := by
    rw [pandasStd, if_neg (by omega)]
  have hts : pandasStd treatment = some (ratSqrt (sampleVar treatment)) := by
    rw [pandasStd, if_neg (by omega)]
  simp only [compare_means, hcs, hts]
  set p := ratSqrt ((ratSqrt (sampleVar control) ^ 2
    + ratSqrt (sampleVar treatment) ^ 2) / 2) with hp
  have hpnn : 0 ≤ p := ratSqrt_nonneg _
  set diff := pandasMean treatment - pandasMean control with hdiff
  by_cases hpos : 0 < p
  · rw [if_pos hpos]
    constructor
    · intro h
      rcases div_eq_zero_iff.mp h with h0 | h0
      · exact Or.inr h0
      · exact absurd h0 (ne_of_gt hpos)
    · rintro (h0 | h0)
      · exact absurd (Option.some_injective ℚ h0) (ne_of_gt hpos)
      · rw [h0, zero_div]
  · rw [if_neg hpos]
    have hp0 : p = 0 := le_antisymm (not_lt.mp hpos) hpnn
    exact ⟨fun _ => Or.inl (by rw [hp0]), fun _ => rfl⟩

/-- Concrete instantiation of `claim_C7`: control `[1, 2, 3]`, treatment
`[1, 2, 4]`. -/
theorem claim_C7_witness :
    (compare_means [1, 2, 3] [1, 2, 4]).cohens_d = 0 ↔
      ((compare_means [1, 2, 3] [1, 2, 4]).pooled_std = some 0 ∨
       (compare_means [1, 2, 3] [1, 2, 4]).difference = 0) :=
  claim_C7 [1, 2, 3] [1, 2, 4] (by norm_num) (by norm_num)

/-- Claim C8 fails as stated: with control sample `[-1, 1]` (mean zero) and
treatment sample `[2, 4]` (mean 3), the percent-change division is
unguarded and produces positive infinity — the value *is* silently the IEEE
infinity of `3 / 0`, not an explicitly flagged undefined value. -/
theorem claim_C8_counterexample :
    (compare_means [-1, 1] [2, 4]).pct_change = FVal.pinf := by
  norm_num [compare_means, pandasMean, fdiv, fscale100]

/-- Claim C8, corrected: for nonempty samples whose control mean is zero,
the comparator's percent change is produced by an *unguarded* float
division: it is never a finite value — it is `+inf` when the treatment mean
exceeds the control mean, `-inf` when it is below, and `NaN` when the means
are equal.  Nothing flags it as undefined; NumPy's division-by-zero
semantics leak straight into the output. -/
theorem claim_C8 (control treatment : List ℚ) (hc : control ≠ [])
    (ht : treatment ≠ []) (h0 : pandasMean control = 0) :
    (compare_means control treatment).pct_change.isFinite = false ∧
    (0 < (compare_means control treatment).difference →
      (compare_means control treatment).pct_change = FVal.pinf) ∧
    ((compare_means control treatment).difference < 0 →
      (compare_means control treatment).pct_change = FVal.ninf) ∧
    ((compare_means control treatment).difference = 0 →
      (compare_means control treatment).pct_change = FVal.nan) := by
  unfold compare_means
  dsimp only
  rw [h0, sub_zero]
  unfold fdiv
  rw [if_pos rfl]
  by_cases hpos : 0 < pandasMean treatment
  · rw [if_pos hpos]
    exact ⟨rfl, fun _ => rfl, fun hneg => absurd hpos (by linarith),
      fun heq => absurd hpos (by rw [heq]; exact lt_irrefl 0)⟩
  · rw [if_neg hpos]
    by_cases hneg : pandasMean treatment < 0
    · rw [if_pos hneg]
      exact ⟨rfl, fun hp => absurd hp hpos, fun _ => rfl,
        fun heq => absurd hneg (by rw [heq]; exact lt_irrefl 0)⟩
    · rw [if_neg hneg]
      exact ⟨rfl, fun hp => absurd hp hpos, fun hn => absurd hn hneg,
        fun _ => rfl⟩

/-- Concrete instantiation of `claim_C8` at control `[-1, 1]` and treatment
`[2, 4]`. -/
theorem claim_C8_witness :
    (compare_means [-1, 1] [2, 4]).pct_change.isFinite = false ∧
    (0 < (compare_means [-1, 1] [2, 4]).difference →
      (compare_means [-1, 1] [2, 4]).pct_change = FVal.pinf) ∧
    ((compare_means [-1, 1] [2, 4]).difference < 0 →
      (compare_means [-1, 1] [2, 4]).pct_change = FVal.ninf) ∧
    ((compare_means [-1, 1] [2, 4]).difference = 0 →
      (compare_means [-1, 1] [2, 4]).pct_change = FVal.nan) :=
  claim_C8 [-1, 1] [2, 4] (by simp) (by simp)
    (by norm_num [pandasMean])

/-! ## Claims about the ROI computation -/

/-- Claim C9: whenever the computed total annual benefit is nonpositive,
`calculate_roi` reports the payback period as the infinite sentinel
(`np.inf`), and the rest of the ROI record — in particular the 3-year NPV
and the year-1 ROI — is still computed by its arithmetic formula, with no
runtime failure (the payback division sits behind the benefit-positivity
guard and is never evaluated in this case). -/
theorem claim_C9 (cfg : RoiConfig) (control treatment : List RoiRow)
    (h : (calculate_roi cfg control treatment).total_annual_benefit ≤ 0) :
    (calculate_roi cfg control treatment).payback_months = FVal.pinf ∧
    (calculate_roi cfg control treatment).npv_3year
      = -50000
        + (calculate_roi cfg control treatment).total_annual_benefit / (11/10) ^ 1
        + (calculate_roi cfg control treatment).total_annual_benefit / (11/10) ^ 2
        + (calculate_roi cfg control treatment).total_annual_benefit / (11/10) ^ 3 ∧
    (calculate_roi cfg control treatment).roi_year1
      = ((calculate_roi cfg control treatment).total_annual_benefit - 50000)
          / 50000 * 100 := by
  unfold calculate_roi at h ⊢
  dsimp only at h ⊢
  rw [if_neg (not_lt.mpr h)]
  exact ⟨rfl, rfl, rfl⟩

/-- Concrete instantiation of `claim_C9`: two empty result sets, so the
total annual benefit is `-15000 ≤ 0` (maintenance with no savings). -/
theorem claim_C9_witness :
    (calculate_roi ⟨1/4, 25, 150, 50000, 15000, 1/10⟩ [] []).payback_months
      = FVal.pinf ∧
    (calculate_roi ⟨1/4, 25, 150, 50000, 15000, 1/10⟩ [] []).npv_3year
      = -50000
        + (calculate_roi ⟨1/4, 25, 150, 50000, 15000, 1/10⟩ [] []).total_annual_benefit / (11/10) ^ 1
        + (calculate_roi ⟨1/4, 25, 150, 50000, 15000, 1/10⟩ [] []).total_annual_benefit / (11/10) ^ 2
        + (calculate_roi ⟨1/4, 25, 150, 50000, 15000, 1/10⟩ [] []).total_annual_benefit / (11/10) ^ 3 ∧
    (calculate_roi ⟨1/4, 25, 150, 50000, 15000, 1/10⟩ [] []).roi_year1
      = ((calculate_roi ⟨1/4, 25, 150, 50000, 15000, 1/10⟩ [] []).total_annual_benefit - 50000)
          / 50000 * 100 :=
  claim_C9 ⟨1/4, 25, 150, 50000, 15000, 1/10⟩ [] []
    (by norm_num [calculate_roi])

/-- Claim C10 fails as stated: two configurations that agree on the
carrying-cost rate but differ in the configured unit cost (25 vs. 50)
produce byte-identical ROI results on the same result sets, and the
inventory savings use the hard-coded 25 — not the configured 50 — so the
computation does not reflect the configured monetary value. -/
theorem claim_C10_counterexample :
    calculate_roi ⟨1/4, 50, 150, 50000, 15000, 1/10⟩
        [⟨100, 2⟩] [⟨40, 1⟩]
      = calculate_roi ⟨1/4, 25, 150, 50000, 15000, 1/10⟩
        [⟨100, 2⟩] [⟨40, 1⟩] ∧
    (⟨1/4, 50, 150, 50000, 15000, 1/10⟩ : RoiConfig).unit_cost
      ≠ (⟨1/4, 25, 150, 50000, 15000, 1/10⟩ : RoiConfig).unit_cost ∧
    (calculate_roi ⟨1/4, 50, 150, 50000, 15000, 1/10⟩
        [⟨100, 2⟩] [⟨40, 1⟩]).inventory_savings
      ≠ ((100 : ℚ) - 40)
          * (⟨1/4, 50, 150, 50000, 15000, 1/10⟩ : RoiConfig).unit_cost := by
  refine ⟨rfl, by norm_num, ?_⟩
  norm_num [calculate_roi]

/-- Claim C10, corrected: of the monetary constants the specification lists,
only the carrying-cost rate is actually taken from the configuration — unit
cost (25), per-stockout cost (150), implementation cost (50000), annual
maintenance (15000) and the discount rate (10%) are hard-coded inside
`calculate_roi`.  Hence the ROI output is invariant under any change of the
configured monetary values as long as the carrying-cost rate is unchanged
(first conjunct), while the carrying-cost rate itself is consumed: the
annual carrying savings equal the inventory savings times the configured
rate (second conjunct). -/
theorem claim_C10 (cfg cfg' : RoiConfig) (control treatment : List RoiRow)
    (h : cfg.carrying_cost_rate = cfg'.carrying_cost_rate) :
    calculate_roi cfg control treatment
      = calculate_roi cfg' control treatment ∧
    (calculate_roi cfg control treatment).annual_carrying_savings
      = (calculate_roi cfg control treatment).inventory_savings
          * cfg.carrying_cost_rate := by
  unfold calculate_roi
  rw [h]
  exact ⟨rfl, rfl⟩

/-- Concrete instantiation of `claim_C10`: the two configurations of the
counterexample (same carrying rate, different unit cost). -/
theorem claim_C10_witness :
    calculate_roi ⟨1/4, 25, 150, 50000, 15000, 1/10⟩ [⟨100, 2⟩] [⟨40, 1⟩]
      = calculate_roi ⟨1/4, 50, 150, 50000, 15000, 1/10⟩ [⟨100, 2⟩] [⟨40, 1⟩] ∧
    (calculate_roi ⟨1/4, 25, 150, 50000, 15000, 1/10⟩
        [⟨100, 2⟩] [⟨40, 1⟩]).annual_carrying_savings
      = (calculate_roi ⟨1/4, 25, 150, 50000, 15000, 1/10⟩
          [⟨100, 2⟩] [⟨40, 1⟩]).inventory_savings
          * (⟨1/4, 25, 150, 50000, 15000, 1/10⟩ : RoiConfig).carrying_cost_rate :=
  claim_C10 ⟨1/4, 25, 150, 50000, 15000, 1/10⟩
    ⟨1/4, 50, 150, 50000, 15000, 1/10⟩ [⟨100, 2⟩] [⟨40, 1⟩] rfl
